import Mathlib

/-!
Shallow embedding of `src/common/apis/synology/client.ts` from
seansfkelley/synology-download-manager.

The file models the resilience core of the Synology API client:

* the failure classifier (`ConnectionFailure.fromError`, source
  `ConnectionFailure.from`),
* the tagged result unions (`RestApiResponse`, `ClientRequestResult`,
  source `RestApiResponse` / `ClientRequestResult`),
* the settings holder (`updateSettings`, `onSettingsChange`,
  `getValidatedSettings`),
* the session manager (`maybeLogin`, `maybeLogout`) and
* the call proxy / retry policy (`wrappedFunction`,
  `maybeLogoutAndRetry`).

JavaScript promises are modelled by their identity (a `Nat` tag standing
for object identity) paired with their eventual resolved value; the
network is an explicit oracle supplied as an argument (what each
`Auth.Login` / `Auth.Logout` / endpoint request would return, or throw).
Thrown JavaScript errors are the inductive `ThrownError`; fallible
transport outcomes are `Except ThrownError _`.

The call proxy runs concurrently with settings updates: each `await` is
a point where the world may have changed.  Its execution is therefore
driven by a list of `Attempt` records, one per pass through the body of
`wrappedFunction`, recording what the awaited login resolved to, what
the endpoint call returned (or threw), and the values of
`this.settingsVersion` read at the three checkpoints.  Observable side
effects (invoking the endpoint function, clearing the cached login
promise) are reported as `ProxyEvent` traces.
-/

/-- Thrown JavaScript error values, as distinguished by the classifier:
`BadResponseError` (carrying `response.status`), `NetworkError`,
`TimeoutError`, and anything else (`other`, with an opaque tag so that
distinct unrecognized errors stay distinct). -/
inductive ThrownError where
  | badResponse (status : Nat)
  | network
  | timeout
  | other (tag : Nat)
deriving DecidableEq, Repr

/-- Source `ConnectionFailure`: a tagged variant, every variant except
`missing-config` carrying the originating error. -/
inductive ConnectionFailure where
  | missingConfig
  | probableWrongProtocol (error : ThrownError)
  | probableWrongUrlOrNoConnectionOrCertError (error : ThrownError)
  | timeout (error : ThrownError)
  | unknown (error : ThrownError)
deriving DecidableEq, Repr

/-- Source `ConnectionFailure.from` (`from` is a Lean keyword, hence
`fromError`): classify a caught error.  `BadResponseError` with HTTP
status 400 maps to `probable-wrong-protocol`; `NetworkError` to
`probable-wrong-url-or-no-connection-or-cert-error`; `TimeoutError` to
`timeout`; everything else (including a `BadResponseError` with any
other status) to `unknown`.  The original error is preserved. -/
def ConnectionFailure.fromError (error : ThrownError) : ConnectionFailure :=
  match error with
  | .badResponse 400 => .probableWrongProtocol error
  | .network => .probableWrongUrlOrNoConnectionOrCertError error
  | .timeout => .timeout error
  | _ => .unknown error

/-- Source `RestApiResponse<T>`: tagged success (payload) or failure
(integer error code). -/
inductive RestApiResponse (T : Type) where
  | success (data : T)
  | failure (code : Nat)
deriving DecidableEq, Repr

/-- Source `ClientRequestResult<T> = RestApiSuccessResponse<T> |
ClientFailureResponse | ConnectionFailure`: endpoint success, API-level
failure annotated with the owning API group, or a connection failure. -/
inductive ClientRequestResult (T : Type) where
  | success (data : T)
  | apiFailure (code : Nat) (apiGroup : String)
  | connectionFailure (failure : ConnectionFailure)
deriving DecidableEq, Repr

/-- Source `ClientRequestResult.from`: a success passes through
unchanged; a failure response is augmented with the owning API group. -/
def ClientRequestResult.fromResponse {T : Type} (response : RestApiResponse T)
    (apiGroup : String) : ClientRequestResult T :=
  match response with
  | .success data => .success data
  | .failure code => .apiFailure code apiGroup

/-- Source `ClientRequestResult.isConnectionFailure`: the source tests
`result.type != null && result.success == null`, which holds exactly for
the `ConnectionFailure` variant (every connection failure has a non-null
`type` and no `success` field; both response shapes have a `success`
field). -/
def ClientRequestResult.isConnectionFailure {T : Type} :
    ClientRequestResult T → Bool
  | .connectionFailure _ => true
  | _ => false

/-- Source `response.success` discriminant on a `ClientRequestResult`. -/
def ClientRequestResult.isSuccess {T : Type} : ClientRequestResult T → Bool
  | .success _ => true
  | _ => false

/-- Source `NO_SUCH_METHOD_ERROR_CODE`. -/
def NO_SUCH_METHOD_ERROR_CODE : Nat := 103
/-- Source `NO_PERMISSIONS_ERROR_CODE`. -/
def NO_PERMISSIONS_ERROR_CODE : Nat := 105
/-- Source `SESSION_TIMEOUT_ERROR_CODE`. -/
def SESSION_TIMEOUT_ERROR_CODE : Nat := 106

/-- Source `Auth.API_NAME` (the `Auth` module is not part of the core;
its name constant is the standard Synology group name; the exact string
is immaterial to every claim). -/
def Auth_API_NAME : String := "SYNO.API.Auth"

/-- Keys of `SynologyClientSettings`. -/
inductive SettingKey where
  | baseUrl
  | account
  | passwd
  | session
deriving DecidableEq, Repr

/-- Source `SETTING_NAME_KEYS`: the fixed list of recognized settings
keys. -/
def SETTING_NAME_KEYS : List SettingKey :=
  [.baseUrl, .account, .passwd, .session]

/-- Source `Partial<SynologyClientSettings>`: each field possibly
absent. -/
structure PartialSettings where
  baseUrl : Option String
  account : Option String
  passwd : Option String
  session : Option String
deriving DecidableEq, Repr

/-- Field lookup `settings[k]`. -/
def getSetting (s : PartialSettings) : SettingKey → Option String
  | .baseUrl => s.baseUrl
  | .account => s.account
  | .passwd => s.passwd
  | .session => s.session

/-- Source `getValidatedSettings`: returns the settings iff every
recognized field is present (`!= null`) and non-empty
(`.length > 0`); otherwise `undefined`. -/
def getValidatedSettings (s : PartialSettings) : Option PartialSettings :=
  if SETTING_NAME_KEYS.all fun k =>
      match getSetting s k with
      | some v => v.length > 0
      | none => false
  then some s
  else none

/-- Payload of a successful `Auth.Login` (`AuthLoginResponse`); only the
`sid` member is consumed by the client. -/
structure AuthLoginData where
  sid : String
deriving DecidableEq, Repr

/-- Observable network / callback activity of the stateful operations:
an `Auth.Login` request at a given protocol version, an `Auth.Logout`
request, or the invocation of a registered settings-change listener
(identified by its tag). -/
inductive ClientEvent where
  | loginRequest (version : Nat)
  | logoutRequest
  | listenerInvoked (listener : Nat)
deriving DecidableEq, Repr

/-- True exactly on `listenerInvoked` events. -/
def ClientEvent.isListenerInvoked : ClientEvent → Bool
  | .listenerInvoked _ => true
  | _ => false

/-- The mutable fields of `class SynologyClient`: the stored (partial)
settings, the settings version counter, the cached login promise
(modelled as identity tag × eventual resolution; `none` when
`undefined`), a counter supplying fresh promise identities, and the
registered settings-change listeners (by identity tag). -/
structure ClientState where
  settings : PartialSettings
  settingsVersion : Nat
  loginPromise : Option (Nat × ClientRequestResult AuthLoginData)
  nextPromiseId : Nat
  listeners : List Nat
deriving DecidableEq, Repr

/-- Resolution of a fallible transport outcome into the value the
login-promise chain settles on: a resolved response goes through
`ClientRequestResult.from` with the Auth group; a rejection is caught by
the trailing `.catch` and classified. -/
def resolveAuthOutcome (outcome : Except ThrownError (RestApiResponse AuthLoginData)) :
    ClientRequestResult AuthLoginData :=
  match outcome with
  | .ok r => ClientRequestResult.fromResponse r Auth_API_NAME
  | .error e => .connectionFailure (ConnectionFailure.fromError e)

/-- Guard of the login chain's `.then`: `!response.success &&
response.error.code === NO_SUCH_METHOD_ERROR_CODE`. -/
def isNoSuchMethodFailure {T : Type} : RestApiResponse T → Bool
  | .failure code => code == NO_SUCH_METHOD_ERROR_CODE
  | .success _ => false

/-- The promise chain built by `maybeLogin` when no login is cached:
issue `Auth.Login` at protocol version 2; if that request resolves
unsuccessfully with the no-such-method code, issue a single second
request at version 3; funnel the final response through
`ClientRequestResult.from` and any rejection through the classifier.
`loginNet` maps the protocol version of a request to its outcome.
Returns the value the cached promise resolves to together with the
protocol versions of the network requests actually issued, in order. -/
def loginChain (loginNet : Nat → Except ThrownError (RestApiResponse AuthLoginData)) :
    ClientRequestResult AuthLoginData × List ClientEvent :=
  match loginNet 2 with
  | .error e =>
      (.connectionFailure (ConnectionFailure.fromError e), [.loginRequest 2])
  | .ok response =>
      if isNoSuchMethodFailure response then
        (resolveAuthOutcome (loginNet 3), [.loginRequest 2, .loginRequest 3])
      else
        (ClientRequestResult.fromResponse response Auth_API_NAME, [.loginRequest 2])

/-- Source `maybeLogin`: if the settings do not validate, return a
`missing-config` connection failure immediately (`Sum.inl`) without
touching any state; otherwise, if a login promise is cached, return it
(`Sum.inr`, same identity, no network activity); otherwise build the
login promise chain, cache it under a fresh identity and return it. -/
def maybeLogin (loginNet : Nat → Except ThrownError (RestApiResponse AuthLoginData))
    (st : ClientState) :
    (ConnectionFailure ⊕ Nat × ClientRequestResult AuthLoginData)
      × ClientState × List ClientEvent :=
  match getValidatedSettings st.settings with
  | none => (.inl .missingConfig, st, [])
  | some _ =>
      match st.loginPromise with
      | some p => (.inr p, st, [])
      | none =>
          let chain := loginChain loginNet
          let p := (st.nextPromiseId, chain.1)
          (.inr p,
           { st with loginPromise := some p, nextPromiseId := st.nextPromiseId + 1 },
           chain.2)

/-- Result type of `maybeLogout`: the source returns
`ClientRequestResult<{}> | "not-logged-in"`. -/
inductive MaybeLogoutResult where
  | notLoggedIn
  | result (r : ClientRequestResult Unit)
deriving DecidableEq, Repr

/-- Source `maybeLogout`: stash the cached login promise, read the
validated settings and clear the cache — all synchronously, before any
`await`.  With no stashed promise, return the `"not-logged-in"`
sentinel; with invalid settings, a `missing-config` failure; otherwise
await the stashed login: a connection failure or an unsuccessful
response is returned as-is, and only a successful login triggers an
`Auth.Logout` network request (`logoutNet`), whose response is tagged
with the Auth group and whose rejection is classified. -/
def maybeLogout (logoutNet : Except ThrownError (RestApiResponse Unit))
    (st : ClientState) :
    MaybeLogoutResult × ClientState × List ClientEvent :=
  let stashedLoginPromise := st.loginPromise
  let settings := getValidatedSettings st.settings
  let cleared : ClientState := { st with loginPromise := none }
  match stashedLoginPromise with
  | none => (.notLoggedIn, cleared, [])
  | some stashed =>
      match settings with
      | none => (.result (.connectionFailure .missingConfig), cleared, [])
      | some _ =>
          match stashed.2 with
          | .connectionFailure f => (.result (.connectionFailure f), cleared, [])
          | .success _ =>
              match logoutNet with
              | .ok r =>
                  (.result (ClientRequestResult.fromResponse r Auth_API_NAME),
                   cleared, [.logoutRequest])
              | .error e =>
                  (.result (.connectionFailure (ConnectionFailure.fromError e)),
                   cleared, [.logoutRequest])
          | .apiFailure code apiGroup =>
              (.result (.apiFailure code apiGroup), cleared, [])

/-- Source `updateSettings`: if any recognized key of the new value
differs from the stored one, increment the version counter, replace the
stored settings wholesale, fire off `maybeLogout` (whose synchronous
prefix clears the cached login promise) and return `true`; otherwise do
nothing and return `false`.  The body contains no interaction with the
registered listeners; the emitted events are exactly those of the
fire-and-forget `maybeLogout`. -/
def updateSettings (logoutNet : Except ThrownError (RestApiResponse Unit))
    (st : ClientState) (settings : PartialSettings) :
    Bool × ClientState × List ClientEvent :=
  if SETTING_NAME_KEYS.any fun k => getSetting settings k != getSetting st.settings k
  then
    let st1 : ClientState :=
      { st with settingsVersion := st.settingsVersion + 1, settings := settings }
    let logout := maybeLogout logoutNet st1
    (true, logout.2.1, logout.2.2)
  else
    (false, st, [])

/-- Source `onSettingsChange`: push the listener onto the list (the
returned unsubscribe closure is `unsubscribeSettingsListener`). -/
def onSettingsChange (st : ClientState) (listener : Nat) : ClientState :=
  { st with listeners := st.listeners ++ [listener] }

/-- The unsubscribe closure returned by `onSettingsChange`: remove the
listener (by identity) from the list. -/
def unsubscribeSettingsListener (st : ClientState) (listener : Nat) : ClientState :=
  { st with listeners := st.listeners.filter fun l => l != listener }

/-- Iterate `maybeLogin` a given number of times against a fixed network
oracle, collecting the returned values and the concatenated event
trace. -/
def iterateMaybeLogin (loginNet : Nat → Except ThrownError (RestApiResponse AuthLoginData)) :
    Nat → ClientState →
      List (ConnectionFailure ⊕ Nat × ClientRequestResult AuthLoginData)
        × ClientState × List ClientEvent
  | 0, st => ([], st, [])
  | n + 1, st =>
      let step := maybeLogin loginNet st
      let rest := iterateMaybeLogin loginNet n step.2.1
      (step.1 :: rest.1, rest.2.1, step.2.2 ++ rest.2.2)

/-!
The call proxy.  One execution of the body of `wrappedFunction` is
driven by an `Attempt` record: the value `await this.maybeLogin()`
settled on (or the error it threw), the outcome of the endpoint call
`fn(...)` (or the error it threw), and the values of
`this.settingsVersion` read at entry, after the login and after the
endpoint call — three independent reads, because concurrent
`updateSettings` calls may change the counter at any `await`.  A whole
execution of the proxied call is driven by a list of attempts, one per
(re-)entry of `wrappedFunction`; the run yields `none` when the list is
exhausted while the source would still be recursing.
-/

/-- Observable side effects of the call proxy: awaiting `maybeLogin`,
invoking the underlying endpoint function `fn`, and clearing the cached
login promise (`this.loginPromise = undefined`). -/
inductive ProxyEvent where
  | loginCall
  | fnCall
  | clearLogin
deriving DecidableEq, Repr

/-- Environment of a single pass through the body of `wrappedFunction`. -/
structure Attempt (U : Type) where
  versionAtInit : Nat
  loginResult : Except ThrownError (ClientRequestResult AuthLoginData)
  versionAfterLogin : Nat
  callResult : Except ThrownError (RestApiResponse U)
  versionAfterCall : Nat

/-- Argument type of `maybeLogoutAndRetry`:
`ConnectionFailure | RestApiFailureResponse`.  The login call site
passes a failed `ClientRequestResult` (whose existing group annotation
is discarded by the `{ ...result, apiGroup }` spread); the endpoint call
site passes a raw failure response; in both cases only the connection
failure or the error code is consumed. -/
inductive RetryInput where
  | connFailure (failure : ConnectionFailure)
  | apiFailure (code : Nat)
deriving DecidableEq, Repr

/-- The `isConnectionFailure` test on a `RetryInput`. -/
def RetryInput.isConnectionFailure : RetryInput → Bool
  | .connFailure _ => true
  | .apiFailure _ => false

/-- The `result.error.code` read on a `RetryInput` (only reached, via
short-circuiting `||`, when the input is not a connection failure). -/
def RetryInput.errorCode : RetryInput → Option Nat
  | .connFailure _ => none
  | .apiFailure code => some code

/-- What one step of the proxy decides to do next. -/
inductive RetryStep (U : Type) where
  | retry
  | surface (r : ClientRequestResult U)

/-- Source `maybeLogoutAndRetry`: when retrying is still allowed and the
failure is a connection failure or carries the session-timeout or
no-permissions code, clear the cached login promise and recurse with
retrying disabled (represented by `.retry`; the caller performs the
clearing and the recursion); otherwise surface a connection failure
unchanged, and an API failure augmented with the proxy's owning API
group. -/
def maybeLogoutAndRetry {U : Type} (shouldRetryRoutineFailures : Bool)
    (apiGroup : String) (result : RetryInput) : RetryStep U :=
  if shouldRetryRoutineFailures &&
      (result.isConnectionFailure ||
        result.errorCode == some SESSION_TIMEOUT_ERROR_CODE ||
        result.errorCode == some NO_PERMISSIONS_ERROR_CODE)
  then .retry
  else
    match result with
    | .connFailure f => .surface (.connectionFailure f)
    | .apiFailure code => .surface (.apiFailure code apiGroup)

/-- What one pass of `wrappedFunction` does with its `Attempt`:
terminate with a result (`.done`), restart because the settings version
changed (`.restart`, recursing with the default `shouldRetry = true`),
or retry after an authorization-class failure (`.retry`, recursing with
`shouldRetry = false`). -/
inductive StepOutcome (U : Type) where
  | done (r : ClientRequestResult U)
  | restart
  | retry

/-- One pass through the body of source `wrappedFunction`, following the
source line by line: await `maybeLogin` (a throw is caught by the
outermost handler and classified); restart if the settings version moved
past `versionAtInit`; funnel a failed login through
`maybeLogoutAndRetry`; otherwise invoke the endpoint function (a throw
again reaches the outermost handler); restart if the version moved
during the call; return a success unchanged; funnel a failure response
through `maybeLogoutAndRetry`.  The event list records, in order, the
login await, the endpoint invocation if reached, and the clearing of the
cached login promise if the retry branch is taken. -/
def oneAttempt {U : Type} (apiGroup : String) (shouldRetryRoutineFailures : Bool)
    (a : Attempt U) : StepOutcome U × List ProxyEvent :=
  match a.loginResult with
  | .error e =>
      (.done (.connectionFailure (ConnectionFailure.fromError e)), [.loginCall])
  | .ok loginResult =>
      if a.versionAfterLogin ≠ a.versionAtInit then
        (.restart, [.loginCall])
      else
        match loginResult with
        | .connectionFailure f =>
            match maybeLogoutAndRetry (U := U) shouldRetryRoutineFailures apiGroup
                (.connFailure f) with
            | .retry => (.retry, [.loginCall, .clearLogin])
            | .surface r => (.done r, [.loginCall])
        | .apiFailure code _ =>
            match maybeLogoutAndRetry (U := U) shouldRetryRoutineFailures apiGroup
                (.apiFailure code) with
            | .retry => (.retry, [.loginCall, .clearLogin])
            | .surface r => (.done r, [.loginCall])
        | .success _ =>
            match a.callResult with
            | .error e =>
                (.done (.connectionFailure (ConnectionFailure.fromError e)),
                 [.loginCall, .fnCall])
            | .ok response =>
                if a.versionAfterCall ≠ a.versionAtInit then
                  (.restart, [.loginCall, .fnCall])
                else
                  match response with
                  | .success data => (.done (.success data), [.loginCall, .fnCall])
                  | .failure code =>
                      match maybeLogoutAndRetry (U := U) shouldRetryRoutineFailures
                          apiGroup (.apiFailure code) with
                      | .retry => (.retry, [.loginCall, .fnCall, .clearLogin])
                      | .surface r => (.done r, [.loginCall, .fnCall])

/-- Source `wrappedFunction`, run against a list of per-pass
environments.  `.restart` re-enters with the DEFAULT retry allowance
(`shouldRetryRoutineFailures = true`, because the source recursion
`wrappedFunction(options)` omits the second argument); `.retry`
re-enters with the allowance spent.  `none` means the environment list
ran out while the source would still be recursing. -/
def wrappedFunction {U : Type} (apiGroup : String)
    (shouldRetryRoutineFailures : Bool) :
    List (Attempt U) → Option (ClientRequestResult U × List ProxyEvent)
  | [] => none
  | a :: rest =>
      match oneAttempt apiGroup shouldRetryRoutineFailures a with
      | (.done r, evs) => some (r, evs)
      | (.restart, evs) =>
          (wrappedFunction apiGroup true rest).map fun rt => (rt.1, evs ++ rt.2)
      | (.retry, evs) =>
          (wrappedFunction apiGroup false rest).map fun rt => (rt.1, evs ++ rt.2)

/-- Concrete valid settings (the spec's sample configuration). -/
def sampleSettings : PartialSettings :=
  { baseUrl := some "http://h", account := some "a",
    passwd := some "p", session := some "S" }

/-- Concrete settings differing from `sampleSettings` in `account`. -/
def sampleSettings2 : PartialSettings :=
  { baseUrl := some "http://h", account := some "b",
    passwd := some "p", session := some "S" }

/-- Concrete incomplete settings (empty password). -/
def sampleSettingsInvalid : PartialSettings :=
  { baseUrl := some "http://h", account := some "a",
    passwd := some "", session := some "S" }

/-- A fresh client at `sampleSettings`. -/
def sampleState : ClientState :=
  { settings := sampleSettings, settingsVersion := 0,
    loginPromise := none, nextPromiseId := 0, listeners := [] }

/-- A client holding a cached, successfully resolved login promise. -/
def sampleStateLoggedIn : ClientState :=
  { settings := sampleSettings, settingsVersion := 0,
    loginPromise := some (0, .success { sid := "sid0" }),
    nextPromiseId := 1, listeners := [] }

/-- A login network oracle that succeeds at every protocol version. -/
def sampleLoginNet (_version : Nat) :
    Except ThrownError (RestApiResponse AuthLoginData) :=
  .ok (.success { sid := "sid0" })

/-- A login network oracle whose version-2 endpoint reports
no-such-method and whose version-3 endpoint succeeds. -/
def sampleProbeLoginNet (version : Nat) :
    Except ThrownError (RestApiResponse AuthLoginData) :=
  if version == 2 then .ok (.failure 103) else .ok (.success { sid := "sid3" })

/-- All three settings-version reads of an attempt returned the same
value: no concurrent settings update was observed during this pass. -/
def Attempt.steadyAt {U : Type} (a : Attempt U) (v : Nat) : Prop :=
  a.versionAtInit = v ∧ a.versionAfterLogin = v ∧ a.versionAfterCall = v

/-- Authorization-class first-attempt failure, as enumerated by the
claim: the awaited login settled on a connection failure or an API
failure coded session-timeout or no-permissions, or the login succeeded
and the endpoint response is a failure coded session-timeout or
no-permissions. -/
def Attempt.authClassFailure {U : Type} (a : Attempt U) : Prop :=
  (∃ f, a.loginResult = .ok (.connectionFailure f)) ∨
  (∃ code grp, a.loginResult = .ok (.apiFailure code grp) ∧
    (code = SESSION_TIMEOUT_ERROR_CODE ∨ code = NO_PERMISSIONS_ERROR_CODE)) ∨
  (∃ d code, a.loginResult = .ok (.success d) ∧ a.callResult = .ok (.failure code) ∧
    (code = SESSION_TIMEOUT_ERROR_CODE ∨ code = NO_PERMISSIONS_ERROR_CODE))

/-- A pass whose endpoint call fails with the session-timeout code while
the settings version stays at 0. -/
def attemptSessionTimeout : Attempt Unit :=
  { versionAtInit := 0, loginResult := .ok (.success { sid := "sid0" }),
    versionAfterLogin := 0, callResult := .ok (.failure 106),
    versionAfterCall := 0 }

/-- A pass whose endpoint call succeeds while the settings version stays
at 0. -/
def attemptSuccess : Attempt Unit :=
  { versionAtInit := 0, loginResult := .ok (.success { sid := "sid0" }),
    versionAfterLogin := 0, callResult := .ok (.success ()),
    versionAfterCall := 0 }

/-- A pass whose endpoint call fails with a business (non-authorization)
code while the settings version stays at 0. -/
def attemptBusinessFailure : Attempt Unit :=
  { versionAtInit := 0, loginResult := .ok (.success { sid := "sid0" }),
    versionAfterLogin := 0, callResult := .ok (.failure 999),
    versionAfterCall := 0 }

/-- A pass during which the settings version moves from 0 to 1 between
the endpoint call and the final checkpoint. -/
def attemptVersionBump : Attempt Unit :=
  { versionAtInit := 0, loginResult := .ok (.success { sid := "sid0" }),
    versionAfterLogin := 0, callResult := .ok (.failure 999),
    versionAfterCall := 1 }

/-- A pass (in the epoch after a version bump) whose endpoint call fails
with the session-timeout code at version 1 throughout. -/
def attemptSessionTimeoutV1 : Attempt Unit :=
  { versionAtInit := 1, loginResult := .ok (.success { sid := "sid1" }),
    versionAfterLogin := 1, callResult := .ok (.failure 106),
    versionAfterCall := 1 }

/-- A pass at version 1 whose endpoint call succeeds. -/
def attemptSuccessV1 : Attempt Unit :=
  { versionAtInit := 1, loginResult := .ok (.success { sid := "sid1" }),
    versionAfterLogin := 1, callResult := .ok (.success ()),
    versionAfterCall := 1 }

/-- A pass whose awaited login settles on a timeout connection failure
while the settings version stays at 0. -/
def attemptLoginConnFailure : Attempt Unit :=
  { versionAtInit := 0, loginResult := .ok (.connectionFailure (.timeout .timeout)),
    versionAfterLogin := 0, callResult := .ok (.success ()),
    versionAfterCall := 0 }

/-- A pass whose awaited login throws a `NetworkError`. -/
def attemptLoginThrows : Attempt Unit :=
  { versionAtInit := 0, loginResult := .error .network,
    versionAfterLogin := 0, callResult := .ok (.success ()),
    versionAfterCall := 0 }

/-!
Helper lemmas shared by the claim theorems.
-/

/-- The state effect of `maybeLogout` is the same for every network
oracle and every branch: the cached login promise is cleared (the
clearing happens synchronously, before any `await`). -/
theorem maybeLogout_state_clears
    (logoutNet : Except ThrownError (RestApiResponse Unit)) (st : ClientState) :
    (maybeLogout logoutNet st).2.1 = { st with loginPromise := none } := by
  simp only [maybeLogout]
  repeat' split
  all_goals rfl

/-- `maybeLogout` emits either no event or a single logout request. -/
theorem maybeLogout_events
    (logoutNet : Except ThrownError (RestApiResponse Unit)) (st : ClientState) :
    (maybeLogout logoutNet st).2.2 = [] ∨
      (maybeLogout logoutNet st).2.2 = [.logoutRequest] := by
  simp only [maybeLogout]
  repeat' split
  all_goals simp

/-- With a cached login promise and validated settings, `maybeLogin`
returns the cached promise unchanged, leaves the state alone and issues
no network request. -/
theorem maybeLogin_cached
    (loginNet : Nat → Except ThrownError (RestApiResponse AuthLoginData))
    (st : ClientState) (p : Nat × ClientRequestResult AuthLoginData)
    (vs : PartialSettings)
    (hvalid : getValidatedSettings st.settings = some vs)
    (hcached : st.loginPromise = some p) :
    maybeLogin loginNet st = (.inr p, st, []) := by
  unfold maybeLogin
  rw [hvalid, hcached]

/-!
Claim theorems for the settings holder and the session manager.
-/

/-- C8: if no recognized settings field differs from the stored value,
`updateSettings` returns `false` and the entire client state is
unchanged — the version counter keeps its value, the stored settings are
not replaced, the cached login promise survives, and no logout (indeed
no event at all) is initiated. -/
theorem updateSettings_identical_noop
    (logoutNet : Except ThrownError (RestApiResponse Unit))
    (st : ClientState) (s : PartialSettings)
    (h : ∀ k ∈ SETTING_NAME_KEYS, getSetting s k = getSetting st.settings k) :
    updateSettings logoutNet st s = (false, st, []) := by
  have hc : (SETTING_NAME_KEYS.any fun k =>
      getSetting s k != getSetting st.settings k) = false := by
    simp only [List.any_eq_false, bne_iff_ne, ne_eq, not_not]
    exact h
  simp [updateSettings, hc]

/-- C3: if some recognized settings field differs from the stored value,
`updateSettings` returns `true`, increments the version counter by
exactly one, replaces the stored settings wholesale and clears the
cached login promise; consequently a subsequent authenticated call
(here: its `maybeLogin` step, when the new settings validate) issues a
fresh login chain under a fresh promise identity instead of reusing any
previously cached session. -/
theorem updateSettings_effective
    (logoutNet : Except ThrownError (RestApiResponse Unit))
    (loginNet : Nat → Except ThrownError (RestApiResponse AuthLoginData))
    (st : ClientState) (s : PartialSettings)
    (h : ∃ k ∈ SETTING_NAME_KEYS, getSetting s k ≠ getSetting st.settings k) :
    (updateSettings logoutNet st s).1 = true ∧
    (updateSettings logoutNet st s).2.1 =
      { settings := s, settingsVersion := st.settingsVersion + 1,
        loginPromise := none, nextPromiseId := st.nextPromiseId,
        listeners := st.listeners } ∧
    (getValidatedSettings s = some s →
      maybeLogin loginNet (updateSettings logoutNet st s).2.1 =
        (.inr (st.nextPromiseId, (loginChain loginNet).1),
         { settings := s, settingsVersion := st.settingsVersion + 1,
           loginPromise := some (st.nextPromiseId, (loginChain loginNet).1),
           nextPromiseId := st.nextPromiseId + 1, listeners := st.listeners },
         (loginChain loginNet).2)) := by
  have hc : (SETTING_NAME_KEYS.any fun k =>
      getSetting s k != getSetting st.settings k) = true := by
    rcases h with ⟨k, hk, hne⟩
    exact List.any_eq_true.mpr ⟨k, hk, bne_iff_ne.mpr hne⟩
  have hstate : (updateSettings logoutNet st s).2.1 =
      { settings := s, settingsVersion := st.settingsVersion + 1,
        loginPromise := none, nextPromiseId := st.nextPromiseId,
        listeners := st.listeners } := by
    simp only [updateSettings, hc, if_true]
    exact maybeLogout_state_clears logoutNet _
  refine ⟨by simp [updateSettings, hc], hstate, ?_⟩
  intro hvalid
  rw [hstate]
  simp [maybeLogin, hvalid]

/-- Updates never emit a listener invocation: the events of
`updateSettings` are exactly those of the fire-and-forget `maybeLogout`,
which issues at most a logout network request. -/
theorem updateSettings_countP_listenerInvoked
    (logoutNet : Except ThrownError (RestApiResponse Unit))
    (st : ClientState) (s : PartialSettings) :
    ((updateSettings logoutNet st s).2.2).countP
      (fun e => ClientEvent.isListenerInvoked e) = 0 := by
  unfold updateSettings
  split
  · rcases maybeLogout_events logoutNet
        { st with settingsVersion := st.settingsVersion + 1, settings := s } with
      hev | hev <;> simp [hev, ClientEvent.isListenerInvoked]
  · simp

/-- C4 (refuted: code-bug evidence): the body of `updateSettings` never
reads `onSettingsChangeListeners`, so a listener registered via
`onSettingsChange` is never invoked, not even by an effective update.
First conjunct: no execution of `updateSettings` emits a
listener-invocation event.  Remaining conjuncts evaluate the concrete
failing input: with listener 7 registered on a fresh client, an update
that changes `account` returns `true` (an effective update) yet emits no
event at all. -/
theorem updateSettings_listeners_never_invoked :
    (∀ (logoutNet : Except ThrownError (RestApiResponse Unit))
       (st : ClientState) (s : PartialSettings),
       ((updateSettings logoutNet st s).2.2).countP
         (fun e => ClientEvent.isListenerInvoked e) = 0) ∧
    7 ∈ (onSettingsChange sampleState 7).listeners ∧
    (updateSettings (.ok (.success ())) (onSettingsChange sampleState 7)
        sampleSettings2).1 = true ∧
    (updateSettings (.ok (.success ())) (onSettingsChange sampleState 7)
        sampleSettings2).2.2 = [] := by
  refine ⟨updateSettings_countP_listenerInvoked, ?_, ?_, ?_⟩
  · simp [onSettingsChange, sampleState]
  · rfl
  · rfl

/-- C2: single-flight login.  First conjunct: while a login promise is
cached and the settings validate, every call in any sequence of
`maybeLogin` calls returns the very same cached promise (same identity,
same resolution), the client state is untouched and no network event is
emitted.  Second conjunct: any `maybeLogin` call that finds a cached
promise issues no network request whatsoever — a login request can only
be issued when no promise is cached. -/
theorem maybeLogin_single_flight :
    (∀ (loginNet : Nat → Except ThrownError (RestApiResponse AuthLoginData))
       (st : ClientState) (p : Nat × ClientRequestResult AuthLoginData)
       (vs : PartialSettings) (n : Nat),
       getValidatedSettings st.settings = some vs →
       st.loginPromise = some p →
       iterateMaybeLogin loginNet n st = (List.replicate n (.inr p), st, [])) ∧
    (∀ (loginNet : Nat → Except ThrownError (RestApiResponse AuthLoginData))
       (st : ClientState) (p : Nat × ClientRequestResult AuthLoginData),
       st.loginPromise = some p → (maybeLogin loginNet st).2.2 = []) := by
  constructor
  · intro loginNet st p vs n hvalid hcached
    induction n with
    | zero => simp [iterateMaybeLogin]
    | succ n ih =>
        simp [iterateMaybeLogin, maybeLogin_cached loginNet st p vs hvalid hcached,
          ih, List.replicate_succ]
  · intro loginNet st p hcached
    unfold maybeLogin
    cases hv : getValidatedSettings st.settings <;> simp [hv, hcached]

/-- C5: the protocol-version probe.  With valid settings and no cached
promise, `maybeLogin` caches (under a fresh identity) and returns the
value of the login chain, whose network requests are recorded in order.
The chain's first request is at protocol version 2; a second request —
at version 3, whose outcome (response tagged with the Auth group, or
classified rejection) becomes the chain's value — is issued exactly when
the version-2 request resolved unsuccessfully with the no-such-method
code; any other resolution of the version-2 request, and any rejection
of it, yields the chain's value with no second request. -/
theorem maybeLogin_protocol_probe
    (loginNet : Nat → Except ThrownError (RestApiResponse AuthLoginData))
    (st : ClientState) (vs : PartialSettings)
    (hvalid : getValidatedSettings st.settings = some vs)
    (hempty : st.loginPromise = none) :
    maybeLogin loginNet st =
      (.inr (st.nextPromiseId, (loginChain loginNet).1),
       { st with loginPromise := some (st.nextPromiseId, (loginChain loginNet).1),
                 nextPromiseId := st.nextPromiseId + 1 },
       (loginChain loginNet).2) ∧
    (loginChain loginNet).2.head? = some (.loginRequest 2) ∧
    (∀ r, loginNet 2 = .ok r → isNoSuchMethodFailure r = true →
       loginChain loginNet =
         (resolveAuthOutcome (loginNet 3), [.loginRequest 2, .loginRequest 3])) ∧
    (∀ r, loginNet 2 = .ok r → isNoSuchMethodFailure r = false →
       loginChain loginNet =
         (ClientRequestResult.fromResponse r Auth_API_NAME, [.loginRequest 2])) ∧
    (∀ e, loginNet 2 = .error e →
       loginChain loginNet =
         (.connectionFailure (ConnectionFailure.fromError e), [.loginRequest 2])) := by
  refine ⟨?_, ?_, ?_, ?_, ?_⟩
  · simp [maybeLogin, hvalid, hempty]
  · unfold loginChain
    cases h2 : loginNet 2 with
    | error e => simp
    | ok r => by_cases hm : isNoSuchMethodFailure r = true <;> simp [hm]
  · intro r h2 hm
    unfold loginChain
    rw [h2]
    simp [hm]
  · intro r h2 hm
    unfold loginChain
    rw [h2]
    simp [hm]
  · intro e h2
    unfold loginChain
    rw [h2]

/-- C6: the logout contract.  For every logout-network oracle: the state
effect is exactly the synchronous clearing of the cached login promise
(first conjunct, independent of the oracle — it happens before any
await); with no cached promise the call returns the not-logged-in
sentinel and emits no network event; a cached login that resolved to a
connection failure or to an unsuccessful response is returned as-is with
no logout network call; only a cached login that resolved successfully
triggers an `Auth.Logout` request, whose response (tagged with the Auth
group) or classified rejection is returned. -/
theorem maybeLogout_contract
    (logoutNet : Except ThrownError (RestApiResponse Unit)) (st : ClientState) :
    ((maybeLogout logoutNet st).2.1 = { st with loginPromise := none }) ∧
    (st.loginPromise = none →
      maybeLogout logoutNet st =
        (.notLoggedIn, { st with loginPromise := none }, [])) ∧
    (∀ i f vs, st.loginPromise = some (i, .connectionFailure f) →
      getValidatedSettings st.settings = some vs →
      maybeLogout logoutNet st =
        (.result (.connectionFailure f), { st with loginPromise := none }, [])) ∧
    (∀ i code grp vs, st.loginPromise = some (i, .apiFailure code grp) →
      getValidatedSettings st.settings = some vs →
      maybeLogout logoutNet st =
        (.result (.apiFailure code grp), { st with loginPromise := none }, [])) ∧
    (∀ i d vs, st.loginPromise = some (i, .success d) →
      getValidatedSettings st.settings = some vs →
      maybeLogout logoutNet st =
        (.result (match logoutNet with
          | .ok r => ClientRequestResult.fromResponse r Auth_API_NAME
          | .error e => .connectionFailure (ConnectionFailure.fromError e)),
         { st with loginPromise := none }, [.logoutRequest])) := by
  refine ⟨maybeLogout_state_clears logoutNet st, ?_, ?_, ?_, ?_⟩
  · intro hempty
    simp [maybeLogout, hempty]
  · intro i f vs hcached hvalid
    simp [maybeLogout, hcached, hvalid]
  · intro i code grp vs hcached hvalid
    simp [maybeLogout, hcached, hvalid]
  · intro i d vs hcached hvalid
    cases logoutNet <;> simp [maybeLogout, hcached, hvalid]

/-- With the retry allowance already spent and no settings-version
movement, one pass of the proxy always terminates with a result: it
never clears the login promise again and invokes the endpoint function
at most once. -/
theorem oneAttempt_spent_done {U : Type} (g : String) (a : Attempt U) (v : Nat)
    (h : a.steadyAt v) :
    ∃ r evs, oneAttempt g false a = (.done r, evs) ∧
      evs.count ProxyEvent.clearLogin = 0 ∧
      evs.count ProxyEvent.fnCall ≤ 1 := by
  obtain ⟨vi, lres, vl, cres, vc⟩ := a
  obtain ⟨h1, h2, h3⟩ := h
  dsimp only at h1 h2 h3
  subst h1; subst h2; subst h3
  cases lres with
  | error e =>
      exact ⟨.connectionFailure (ConnectionFailure.fromError e), [.loginCall],
        by simp [oneAttempt], by decide, by decide⟩
  | ok lr =>
      cases lr with
      | connectionFailure f =>
          exact ⟨.connectionFailure f, [.loginCall],
            by simp [oneAttempt, maybeLogoutAndRetry], by decide, by decide⟩
      | apiFailure code grp =>
          exact ⟨.apiFailure code g, [.loginCall],
            by simp [oneAttempt, maybeLogoutAndRetry], by decide, by decide⟩
      | success d =>
          cases cres with
          | error e =>
              exact ⟨.connectionFailure (ConnectionFailure.fromError e),
                [.loginCall, .fnCall], by simp [oneAttempt], by decide, by decide⟩
          | ok response =>
              cases response with
              | success u =>
                  exact ⟨.success u, [.loginCall, .fnCall],
                    by simp [oneAttempt], by decide, by decide⟩
              | failure code =>
                  exact ⟨.apiFailure code g, [.loginCall, .fnCall],
                    by simp [oneAttempt, maybeLogoutAndRetry], by decide, by decide⟩

/-- With the retry allowance available, no settings-version movement and
an authorization-class failure, one pass of the proxy decides to retry:
it clears the cached login promise exactly once and has invoked the
endpoint function at most once. -/
theorem oneAttempt_authClass_retry {U : Type} (g : String) (a : Attempt U) (v : Nat)
    (hs : a.steadyAt v) (ha : a.authClassFailure) :
    ∃ evs, oneAttempt g true a = (.retry, evs) ∧
      evs.count ProxyEvent.clearLogin = 1 ∧
      evs.count ProxyEvent.fnCall ≤ 1 := by
  obtain ⟨vi, lres, vl, cres, vc⟩ := a
  obtain ⟨h1, h2, h3⟩ := hs
  dsimp only at h1 h2 h3
  subst h1; subst h2; subst h3
  rcases ha with ⟨f, hl⟩ | ⟨code, grp, hl, hcode⟩ | ⟨d, code, hl, hc, hcode⟩
  · dsimp only at hl
    subst hl
    exact ⟨[.loginCall, .clearLogin],
      by simp [oneAttempt, maybeLogoutAndRetry, RetryInput.isConnectionFailure],
      by decide, by decide⟩
  · dsimp only at hl
    subst hl
    refine ⟨[.loginCall, .clearLogin], ?_, by decide, by decide⟩
    rcases hcode with hcode | hcode <;> subst hcode <;>
      simp [oneAttempt, maybeLogoutAndRetry, RetryInput.isConnectionFailure,
        RetryInput.errorCode]
  · dsimp only at hl hc
    subst hl; subst hc
    refine ⟨[.loginCall, .fnCall, .clearLogin], ?_, by decide, by decide⟩
    rcases hcode with hcode | hcode <;> subst hcode <;>
      simp [oneAttempt, maybeLogoutAndRetry, RetryInput.isConnectionFailure,
        RetryInput.errorCode]

/-!
Claim theorems for the call proxy / retry policy.
-/

/-- C1: retried exactly once.  On a call whose settings-version reads
never move, a first pass that hits an authorization-class failure (login
settling on a connection failure or on an API failure coded
session-timeout or no-permissions, or the endpoint responding with one
of those two codes) makes the proxy clear the cached login promise and
re-enter exactly once with retrying disabled; the second pass terminates
on its own environment — whatever its outcome, including any failure —
and its result is returned to the caller: the login promise is cleared
exactly once in the whole run, the endpoint function is invoked at most
twice, and no further pass (the `rest` of the environment) is ever
consulted. -/
theorem proxy_retries_exactly_once {U : Type} (g : String)
    (a1 a2 : Attempt U) (rest : List (Attempt U)) (v : Nat)
    (h1 : a1.steadyAt v) (h2 : a2.steadyAt v) (ha : a1.authClassFailure) :
    ∃ r2 evs1 evs2,
      oneAttempt g true a1 = (.retry, evs1) ∧
      oneAttempt g false a2 = (.done r2, evs2) ∧
      wrappedFunction g true (a1 :: a2 :: rest) = some (r2, evs1 ++ evs2) ∧
      (evs1 ++ evs2).count ProxyEvent.clearLogin = 1 ∧
      (evs1 ++ evs2).count ProxyEvent.fnCall ≤ 2 := by
  obtain ⟨evs1, hr1, hc1, hf1⟩ := oneAttempt_authClass_retry g a1 v h1 ha
  obtain ⟨r2, evs2, hr2, hc2, hf2⟩ := oneAttempt_spent_done g a2 v h2
  refine ⟨r2, evs1, evs2, hr1, hr2, ?_, ?_, ?_⟩
  · unfold wrappedFunction
    rw [hr1]
    unfold wrappedFunction
    rw [hr2]
    rfl
  · simp only [List.count_append, hc1, hc2]
  · simp only [List.count_append]
    omega

/-- C7: failures outside the retry policy are surfaced immediately.
First conjunct: on a steady-version pass whose login succeeded and whose
endpoint response is an API failure, if the code is neither
session-timeout nor no-permissions — or the retry allowance is already
spent — the failure is returned at once, augmented with the proxy's
owning API group, with the endpoint function invoked exactly once in
total and no further pass consulted.  Remaining conjuncts: with the
allowance spent, a failed login is likewise surfaced at once with zero
endpoint invocations (a connection failure unchanged, an API failure
re-tagged with the owning group). -/
theorem proxy_business_failure_surfaced {U : Type} (g : String) (v : Nat) :
    (∀ (retry : Bool) (a : Attempt U) (rest : List (Attempt U))
       (d : AuthLoginData) (code : Nat),
       a.steadyAt v → a.loginResult = .ok (.success d) →
       a.callResult = .ok (.failure code) →
       (retry = false ∨
         (code ≠ SESSION_TIMEOUT_ERROR_CODE ∧ code ≠ NO_PERMISSIONS_ERROR_CODE)) →
       wrappedFunction g retry (a :: rest) =
         some (.apiFailure code g, [.loginCall, .fnCall])) ∧
    (∀ (a : Attempt U) (rest : List (Attempt U)) (f : ConnectionFailure),
       a.steadyAt v → a.loginResult = .ok (.connectionFailure f) →
       wrappedFunction g false (a :: rest) =
         some (.connectionFailure f, [.loginCall])) ∧
    (∀ (a : Attempt U) (rest : List (Attempt U)) (code : Nat) (grp : String),
       a.steadyAt v → a.loginResult = .ok (.apiFailure code grp) →
       wrappedFunction g false (a :: rest) =
         some (.apiFailure code g, [.loginCall])) := by
  refine ⟨?_, ?_, ?_⟩
  · intro retry a rest d code hs hl hc hcond
    obtain ⟨vi, lres, vl, cres, vc⟩ := a
    obtain ⟨h1, h2, h3⟩ := hs
    dsimp only at h1 h2 h3 hl hc
    subst h1; subst h2; subst h3; subst hl; subst hc
    rcases hcond with hretry | ⟨hc106, hc105⟩
    · subst hretry
      simp [wrappedFunction, oneAttempt, maybeLogoutAndRetry]
    · simp [wrappedFunction, oneAttempt, maybeLogoutAndRetry,
        RetryInput.isConnectionFailure, RetryInput.errorCode, hc106, hc105]
  · intro a rest f hs hl
    obtain ⟨vi, lres, vl, cres, vc⟩ := a
    obtain ⟨h1, h2, h3⟩ := hs
    dsimp only at h1 h2 h3 hl
    subst h1; subst h2; subst h3; subst hl
    simp [wrappedFunction, oneAttempt, maybeLogoutAndRetry]
  · intro a rest code grp hs hl
    obtain ⟨vi, lres, vl, cres, vc⟩ := a
    obtain ⟨h1, h2, h3⟩ := hs
    dsimp only at h1 h2 h3 hl
    subst h1; subst h2; subst h3; subst hl
    simp [wrappedFunction, oneAttempt, maybeLogoutAndRetry]

/-- C9: the proxy never lets an exception escape.  A login that throws
is caught at the outermost handler and returned as the classified
connection failure (first conjunct); an endpoint invocation that throws
likewise (second conjunct); in both cases the original error is
preserved inside the returned value, which is a `ClientRequestResult`.
The remaining conjuncts pin down the classifier: `BadResponseError` with
HTTP status 400 maps to probable-wrong-protocol, `NetworkError` to
probable-wrong-url-or-no-connection-or-cert-error, `TimeoutError` to
timeout, and everything else — including a `BadResponseError` with any
other status — to unknown, always carrying the original error. -/
theorem proxy_absorbs_thrown_errors :
    (∀ (U : Type) (g : String) (retry : Bool) (a : Attempt U)
       (rest : List (Attempt U)) (e : ThrownError),
       a.loginResult = .error e →
       wrappedFunction g retry (a :: rest) =
         some (.connectionFailure (ConnectionFailure.fromError e), [.loginCall])) ∧
    (∀ (U : Type) (g : String) (retry : Bool) (a : Attempt U)
       (rest : List (Attempt U)) (d : AuthLoginData) (e : ThrownError),
       a.loginResult = .ok (.success d) →
       a.versionAfterLogin = a.versionAtInit →
       a.callResult = .error e →
       wrappedFunction g retry (a :: rest) =
         some (.connectionFailure (ConnectionFailure.fromError e),
           [.loginCall, .fnCall])) ∧
    (ConnectionFailure.fromError (.badResponse 400) =
       .probableWrongProtocol (.badResponse 400)) ∧
    (ConnectionFailure.fromError .network =
       .probableWrongUrlOrNoConnectionOrCertError .network) ∧
    (ConnectionFailure.fromError .timeout = .timeout .timeout) ∧
    (∀ s, s ≠ 400 →
       ConnectionFailure.fromError (.badResponse s) = .unknown (.badResponse s)) ∧
    (∀ t, ConnectionFailure.fromError (.other t) = .unknown (.other t)) := by
  refine ⟨?_, ?_, rfl, rfl, rfl, ?_, fun t => rfl⟩
  · intro U g retry a rest e hl
    obtain ⟨vi, lres, vl, cres, vc⟩ := a
    dsimp only at hl
    subst hl
    simp [wrappedFunction, oneAttempt]
  · intro U g retry a rest d e hl hv hc
    obtain ⟨vi, lres, vl, cres, vc⟩ := a
    dsimp only at hl hv hc
    subst hl; subst hv; subst hc
    simp [wrappedFunction, oneAttempt]
  · intro s hs
    unfold ConnectionFailure.fromError
    split
    all_goals simp_all

/-- C10: version-fencing restarts reset the retry allowance.  Whenever a
pass observes the settings version moved past its initial snapshot — at
the post-login checkpoint (first conjunct) or the post-endpoint-call
checkpoint (second conjunct) — the proxy discards the pass's outcome and
re-enters with the DEFAULT allowance `true`, whatever the current pass's
allowance was.  Third conjunct: consequently a single external call can
invoke the endpoint function three times — a concrete run whose first
pass retries on a session-timeout, whose second (allowance-spent) pass
hits a version bump and restarts with a fresh allowance, and whose third
pass succeeds. -/
theorem proxy_restart_resets_retry :
    (∀ (U : Type) (g : String) (retry : Bool) (a : Attempt U)
       (rest : List (Attempt U)) (lr : ClientRequestResult AuthLoginData),
       a.loginResult = .ok lr → a.versionAfterLogin ≠ a.versionAtInit →
       wrappedFunction g retry (a :: rest) =
         (wrappedFunction g true rest).map fun rt => (rt.1, .loginCall :: rt.2)) ∧
    (∀ (U : Type) (g : String) (retry : Bool) (a : Attempt U)
       (rest : List (Attempt U)) (d : AuthLoginData) (resp : RestApiResponse U),
       a.loginResult = .ok (.success d) → a.versionAfterLogin = a.versionAtInit →
       a.callResult = .ok resp → a.versionAfterCall ≠ a.versionAtInit →
       wrappedFunction g retry (a :: rest) =
         (wrappedFunction g true rest).map fun rt =>
           (rt.1, .loginCall :: .fnCall :: rt.2)) ∧
    (∃ (env : List (Attempt Unit)) (r : ClientRequestResult Unit)
       (evs : List ProxyEvent),
       wrappedFunction "g" true env = some (r, evs) ∧
       evs.count ProxyEvent.fnCall = 3) := by
  refine ⟨?_, ?_, ?_⟩
  · intro U g retry a rest lr hl hne
    obtain ⟨vi, lres, vl, cres, vc⟩ := a
    dsimp only at hl hne
    subst hl
    simp [wrappedFunction, oneAttempt, hne]
  · intro U g retry a rest d resp hl hv hc hne
    obtain ⟨vi, lres, vl, cres, vc⟩ := a
    dsimp only at hl hv hc hne
    subst hl; subst hv; subst hc
    simp [wrappedFunction, oneAttempt, hne]
  · refine ⟨[attemptSessionTimeout, attemptVersionBump, attemptSuccessV1],
      .success (),
      [.loginCall, .fnCall, .clearLogin, .loginCall, .fnCall, .loginCall, .fnCall],
      ?_, by decide⟩
    rfl

/-!
Witnesses: each theorem with hypotheses instantiated at a concrete
input, every hypothesis discharged.
-/

/-- `updateSettings_identical_noop` at a concrete identical update. -/
theorem updateSettings_identical_noop_witness :
    updateSettings (.ok (.success ())) sampleState sampleSettings =
      (false, sampleState, []) :=
  updateSettings_identical_noop (.ok (.success ())) sampleState sampleSettings
    (by decide)

/-- `updateSettings_effective` at a concrete update changing `account`. -/
theorem updateSettings_effective_witness :
    (updateSettings (.ok (.success ())) sampleState sampleSettings2).1 = true ∧
    (updateSettings (.ok (.success ())) sampleState sampleSettings2).2.1 =
      { settings := sampleSettings2,
        settingsVersion := sampleState.settingsVersion + 1,
        loginPromise := none, nextPromiseId := sampleState.nextPromiseId,
        listeners := sampleState.listeners } ∧
    (getValidatedSettings sampleSettings2 = some sampleSettings2 →
      maybeLogin sampleLoginNet
          (updateSettings (.ok (.success ())) sampleState sampleSettings2).2.1 =
        (.inr (sampleState.nextPromiseId, (loginChain sampleLoginNet).1),
         { settings := sampleSettings2,
           settingsVersion := sampleState.settingsVersion + 1,
           loginPromise :=
             some (sampleState.nextPromiseId, (loginChain sampleLoginNet).1),
           nextPromiseId := sampleState.nextPromiseId + 1,
           listeners := sampleState.listeners },
         (loginChain sampleLoginNet).2)) :=
  updateSettings_effective (.ok (.success ())) sampleLoginNet sampleState
    sampleSettings2 ⟨.account, by decide, by decide⟩

/-- `maybeLogin_single_flight` at a client with a cached login. -/
theorem maybeLogin_single_flight_witness :
    iterateMaybeLogin sampleLoginNet 3 sampleStateLoggedIn =
      (List.replicate 3 (.inr (0, .success { sid := "sid0" })),
       sampleStateLoggedIn, []) ∧
    (maybeLogin sampleLoginNet sampleStateLoggedIn).2.2 = [] :=
  ⟨maybeLogin_single_flight.1 sampleLoginNet sampleStateLoggedIn
      (0, .success { sid := "sid0" }) sampleSettings 3 (by decide) rfl,
   maybeLogin_single_flight.2 sampleLoginNet sampleStateLoggedIn
      (0, .success { sid := "sid0" }) rfl⟩

/-- `maybeLogin_protocol_probe` at a fresh client against the probing
oracle (version 2 reports no-such-method, version 3 succeeds). -/
theorem maybeLogin_protocol_probe_witness :
    maybeLogin sampleProbeLoginNet sampleState =
      (.inr (0, (loginChain sampleProbeLoginNet).1),
       { sampleState with
           loginPromise := some (0, (loginChain sampleProbeLoginNet).1),
           nextPromiseId := 1 },
       (loginChain sampleProbeLoginNet).2) ∧
    loginChain sampleProbeLoginNet =
      (resolveAuthOutcome (sampleProbeLoginNet 3),
       [.loginRequest 2, .loginRequest 3]) :=
  ⟨(maybeLogin_protocol_probe sampleProbeLoginNet sampleState sampleSettings
      (by decide) rfl).1,
   (maybeLogin_protocol_probe sampleProbeLoginNet sampleState sampleSettings
      (by decide) rfl).2.2.1 (.failure 103) rfl rfl⟩

/-- `maybeLogout_contract` at a fresh client (sentinel case) and at a
client with a cached successful login (real logout case). -/
theorem maybeLogout_contract_witness :
    (maybeLogout (.ok (.success ())) sampleStateLoggedIn).2.1 =
      { sampleStateLoggedIn with loginPromise := none } ∧
    maybeLogout (.ok (.success ())) sampleState =
      (.notLoggedIn, { sampleState with loginPromise := none }, []) ∧
    maybeLogout (.ok (.success ())) sampleStateLoggedIn =
      (.result (ClientRequestResult.fromResponse (.success ()) Auth_API_NAME),
       { sampleStateLoggedIn with loginPromise := none }, [.logoutRequest]) :=
  ⟨(maybeLogout_contract (.ok (.success ())) sampleStateLoggedIn).1,
   (maybeLogout_contract (.ok (.success ())) sampleState).2.1 rfl,
   (maybeLogout_contract (.ok (.success ())) sampleStateLoggedIn).2.2.2.2 0
      { sid := "sid0" } sampleSettings rfl (by decide)⟩

/-- `proxy_retries_exactly_once` at a first pass failing with
session-timeout and a second pass succeeding. -/
theorem proxy_retries_exactly_once_witness :
    ∃ r2 evs1 evs2,
      oneAttempt "g" true attemptSessionTimeout = (.retry, evs1) ∧
      oneAttempt "g" false attemptSuccess = (.done r2, evs2) ∧
      wrappedFunction "g" true [attemptSessionTimeout, attemptSuccess] =
        some (r2, evs1 ++ evs2) ∧
      (evs1 ++ evs2).count ProxyEvent.clearLogin = 1 ∧
      (evs1 ++ evs2).count ProxyEvent.fnCall ≤ 2 :=
  proxy_retries_exactly_once "g" attemptSessionTimeout attemptSuccess [] 0
    ⟨rfl, rfl, rfl⟩ ⟨rfl, rfl, rfl⟩
    (Or.inr (Or.inr ⟨{ sid := "sid0" }, 106, rfl, rfl, Or.inl rfl⟩))

/-- `proxy_business_failure_surfaced` at a business failure (code 999)
with the allowance available, and at a spent-allowance login connection
failure. -/
theorem proxy_business_failure_surfaced_witness :
    wrappedFunction "g" true [attemptBusinessFailure] =
      some (.apiFailure 999 "g", [.loginCall, .fnCall]) ∧
    wrappedFunction "g" false [attemptLoginConnFailure] =
      some (.connectionFailure (.timeout .timeout), [.loginCall]) :=
  ⟨(proxy_business_failure_surfaced "g" 0).1 true attemptBusinessFailure []
      { sid := "sid0" } 999 ⟨rfl, rfl, rfl⟩ rfl rfl (Or.inr ⟨by decide, by decide⟩),
   (proxy_business_failure_surfaced "g" 0).2.1 attemptLoginConnFailure []
      (.timeout .timeout) ⟨rfl, rfl, rfl⟩ rfl⟩

/-- `proxy_absorbs_thrown_errors` at a login that throws a
`NetworkError`, plus the classifier on an unrecognized HTTP status. -/
theorem proxy_absorbs_thrown_errors_witness :
    wrappedFunction "g" true [attemptLoginThrows] =
      some (.connectionFailure (ConnectionFailure.fromError .network),
        [.loginCall]) ∧
    ConnectionFailure.fromError (.badResponse 500) = .unknown (.badResponse 500) :=
  ⟨proxy_absorbs_thrown_errors.1 Unit "g" true attemptLoginThrows [] .network rfl,
   proxy_absorbs_thrown_errors.2.2.2.2.2.1 500 (by decide)⟩

/-- `proxy_restart_resets_retry` at a spent-allowance pass that observes
a version bump after the endpoint call: the run restarts with the
default allowance. -/
theorem proxy_restart_resets_retry_witness :
    wrappedFunction "g" false [attemptVersionBump, attemptSuccessV1] =
      (wrappedFunction "g" true [attemptSuccessV1]).map fun rt =>
        (rt.1, .loginCall :: .fnCall :: rt.2) :=
  proxy_restart_resets_retry.2.1 Unit "g" false attemptVersionBump
    [attemptSuccessV1] { sid := "sid0" } (.failure 999) rfl rfl rfl (by decide)
